import Mathlib

/-!
Shallow embedding of the randomized property-testing harness `fuzz.py`.

The harness drives five fuzzing campaigns (chunking, date difference,
content dump, average, median).  Each campaign iterates trials: generate a
random input, invoke the external target under a failure boundary, and on
success run an oracle check; violations and faults are appended to a list
of findings by `record_issue`.

Modelling conventions:
- Python scalar values are `PyScalar` (int / float / str / None); floats are
  abstracted as `PyFloat` (the NaN sentinel or a rational value).
- A recorded finding is the Python dict built by `record_issue`, modelled as
  an association list `List (String × PyVal)` in insertion order.
- A target invocation's outcome is `Except Fault α`: `Except.ok` for a
  normal return, `Except.error` for a raised exception.  The external
  target functions (makeChunks, days_between, dumpContentIntoFile, Average,
  Median) live outside this repository, so each trial is parameterized by
  the generated input together with the target's outcome.
- The shared random source is an abstract stream of draws (`RS`); each
  primitive call of the `random` module consumes one draw.
-/

set_option maxHeartbeats 1000000

namespace Fuzz

/-- Abstract model of a Python float: the NaN sentinel or a finite value
represented as a rational number. -/
inductive PyFloat where
  | nan : PyFloat
  | val : Rat → PyFloat
deriving DecidableEq

/-- Scalar Python values appearing in generated data and in recorded
payloads: integers, floats, strings, and the absent-value marker None. -/
inductive PyScalar where
  | int : Int → PyScalar
  | float : PyFloat → PyScalar
  | str : String → PyScalar
  | none : PyScalar
deriving DecidableEq

/-- Structured Python values used as finding payloads: a scalar, a list of
scalars, or a string-keyed dict of scalars. -/
inductive PyVal where
  | scalar : PyScalar → PyVal
  | list : List PyScalar → PyVal
  | dict : List (String × PyScalar) → PyVal
deriving DecidableEq

deriving instance DecidableEq for Except

/-- A raised Python exception, reduced to its class name and message. -/
structure Fault where
  kind : String
  msg : String
deriving DecidableEq

/-- Model of Python's repr applied to an exception constructed with a single
string argument: the class name followed by the parenthesized quoted
message, e.g. ValueError('boom'). -/
def pyReprFault (e : Fault) : String := e.kind ++ "('" ++ e.msg ++ "')"

/-- A recorded finding: the Python dict built by `record_issue`, as an
association list in insertion order. -/
abbrev Finding := List (String × PyVal)

/-- Lookup of a key in a finding dict (first occurrence). -/
def dlookup (k : String) : Finding → Option PyVal
  | [] => Option.none
  | kv :: rest => if kv.1 = k then some kv.2 else dlookup k rest

/-- The single issue dict that one call of `record_issue` appends: keys
"function", "detail", "payload", and "error" exactly when an exception
object was supplied (Python's `if error:` test, with exception objects
always truthy). -/
def issueOf (function_name : String) (detail : String) (payload : PyVal)
    (error : Option Fault) : Finding :=
  let base : Finding :=
    [("function", PyVal.scalar (PyScalar.str function_name)),
     ("detail", PyVal.scalar (PyScalar.str detail)),
     ("payload", payload)]
  match error with
  | some e => base ++ [("error", PyVal.scalar (PyScalar.str (pyReprFault e)))]
  | Option.none => base

/-- Embedding of `record_issue` in `fuzz.py`: build the issue dict and
append it to the list of issues (Python mutates the list in place; here the
updated list is returned). -/
def record_issue (issues : List Finding) (function_name : String) (detail : String)
    (payload : PyVal) (error : Option Fault) : List Finding :=
  issues ++ [issueOf function_name detail payload error]

/-- One trial of the chunking campaign: the generated input sequence and
chunk size, plus the outcome of `list(mining.makeChunks(data, size))`. -/
structure ChunkTrial where
  data : List Int
  size : Int
  outcome : Except Fault (List (List Int))
deriving DecidableEq

/-- The body of one iteration of `fuzz_make_chunks`: on success, flatten the
chunks and run the two oracle checks; on a raised fault, record one finding
with the captured exception. -/
def chunkStep (issues : List Finding) (t : ChunkTrial) : List Finding :=
  match t.outcome with
  | Except.ok chunks =>
    let flattened := chunks.flatten
    let issues1 :=
      if t.size ≤ 0 ∧ chunks ≠ [] then
        record_issue issues "makeChunks"
          "Expected empty result when chunk size is non-positive"
          (PyVal.dict [("size", PyScalar.int t.size),
                       ("len", PyScalar.int (t.data.length : Int)),
                       ("result_len", PyScalar.int (chunks.length : Int))])
          Option.none
      else issues
    if 0 < t.size ∧ flattened ≠ t.data then
      record_issue issues1 "makeChunks" "Chunk reconstruction mismatch"
        (PyVal.dict [("size", PyScalar.int t.size),
                     ("original_len", PyScalar.int (t.data.length : Int)),
                     ("flattened_len", PyScalar.int (flattened.length : Int))])
        Option.none
    else issues1
  | Except.error exc =>
    record_issue issues "makeChunks" "Exception during chunking"
      (PyVal.dict [("size", PyScalar.int t.size),
                   ("len", PyScalar.int (t.data.length : Int))])
      (some exc)

/-- Embedding of `fuzz_make_chunks`: fold the per-trial body over the list
of trials, starting from an empty issue list. -/
def fuzz_make_chunks (trials : List ChunkTrial) : List Finding :=
  trials.foldl chunkStep []

/-- A generated timestamp (datetime with seconds and microseconds zero, as
produced by the date-pair generator). -/
structure Timestamp where
  year : Nat
  month : Nat
  day : Nat
  hour : Nat
  minute : Nat
deriving DecidableEq

/-- Two-digit zero padding, as in ISO timestamp fields. -/
def pad2 (n : Nat) : String := if n < 10 then "0" ++ Nat.repr n else Nat.repr n

/-- Four-digit zero padding for the year field. -/
def pad4 (n : Nat) : String :=
  if n < 10 then "000" ++ Nat.repr n
  else if n < 100 then "00" ++ Nat.repr n
  else if n < 1000 then "0" ++ Nat.repr n
  else Nat.repr n

/-- Model of datetime.isoformat() for a timestamp with zero seconds and
microseconds: YYYY-MM-DDTHH:MM:SS. -/
def isoformat (t : Timestamp) : String :=
  pad4 t.year ++ "-" ++ pad2 t.month ++ "-" ++ pad2 t.day ++ "T" ++
    pad2 t.hour ++ ":" ++ pad2 t.minute ++ ":00"

/-- One trial of the date-difference campaign: the generated start and end
timestamps, plus the outcome of `mining.days_between(start, end)`. -/
structure DaysTrial where
  start : Timestamp
  endDate : Timestamp
  outcome : Except Fault Int
deriving DecidableEq

/-- The body of one iteration of `fuzz_days_between`: flag a negative
result; on a raised fault, record one finding with the captured
exception. -/
def daysStep (issues : List Finding) (t : DaysTrial) : List Finding :=
  match t.outcome with
  | Except.ok result =>
    if result < 0 then
      record_issue issues "days_between" "Negative delta returned"
        (PyVal.dict [("start", PyScalar.str (isoformat t.start)),
                     ("end", PyScalar.str (isoformat t.endDate)),
                     ("result", PyScalar.int result)])
        Option.none
    else issues
  | Except.error exc =>
    record_issue issues "days_between" "Exception during computation"
      (PyVal.dict [("start", PyScalar.str (isoformat t.start)),
                   ("end", PyScalar.str (isoformat t.endDate))])
      (some exc)

/-- Embedding of `fuzz_days_between` as a fold over its trials. -/
def fuzz_days_between (trials : List DaysTrial) : List Finding :=
  trials.foldl daysStep []

/-- One trial of the content-dump campaign: the generated text and
destination path, plus the combined outcome of
`int(mining.dumpContentIntoFile(content, path))` and the subsequent stat
call (reported size, on-disk size); a fault in either is caught by the same
handler. -/
structure DumpTrial where
  content : String
  path : String
  outcome : Except Fault (Int × Int)
deriving DecidableEq

/-- The body of one iteration of `fuzz_dump_content` (findings only; the
filesystem effects are modelled separately): flag a mismatch between the
reported and measured sizes; on a raised fault, record one finding. -/
def dumpStep (issues : List Finding) (t : DumpTrial) : List Finding :=
  match t.outcome with
  | Except.ok sizes =>
    if sizes.1 ≠ sizes.2 then
      record_issue issues "dumpContentIntoFile" "Reported size mismatch"
        (PyVal.dict [("reported", PyScalar.int sizes.1),
                     ("actual", PyScalar.int sizes.2),
                     ("path", PyScalar.str t.path)])
        Option.none
    else issues
  | Except.error exc =>
    record_issue issues "dumpContentIntoFile" "Exception during write"
      (PyVal.dict [("path", PyScalar.str t.path),
                   ("len", PyScalar.int (t.content.length : Int))])
      (some exc)

/-- Embedding of `fuzz_dump_content` (finding accumulation) as a fold over
its trials. -/
def fuzz_dump_content (trials : List DumpTrial) : List Finding :=
  trials.foldl dumpStep []

/-- One trial of the Average or Median campaign: the generated numeric/noise
payload, plus the outcome of the target call. -/
structure NumTrial where
  payload : List PyScalar
  outcome : Except Fault PyVal
deriving DecidableEq

/-- Python's `isinstance(result, float) and math.isnan(result)`: the result
is a float and is the NaN sentinel. -/
def isNaNFloat : PyVal → Bool
  | PyVal.scalar (PyScalar.float PyFloat.nan) => true
  | _ => false

/-- The body of one iteration of `fuzz_average`: flag a NaN result on a
non-empty payload; on a raised fault, record one finding carrying the
payload. -/
def averageStep (issues : List Finding) (t : NumTrial) : List Finding :=
  match t.outcome with
  | Except.ok result =>
    if isNaNFloat result ∧ t.payload ≠ [] then
      record_issue issues "Average" "Average returned NaN for payload with data"
        (PyVal.list t.payload) Option.none
    else issues
  | Except.error exc =>
    record_issue issues "Average" "Exception during average"
      (PyVal.list t.payload) (some exc)

/-- The body of one iteration of `fuzz_median`, mirroring `averageStep`. -/
def medianStep (issues : List Finding) (t : NumTrial) : List Finding :=
  match t.outcome with
  | Except.ok result =>
    if isNaNFloat result ∧ t.payload ≠ [] then
      record_issue issues "Median" "Median returned NaN for payload with data"
        (PyVal.list t.payload) Option.none
    else issues
  | Except.error exc =>
    record_issue issues "Median" "Exception during median"
      (PyVal.list t.payload) (some exc)

/-- Embedding of `fuzz_average` as a fold over its trials. -/
def fuzz_average (trials : List NumTrial) : List Finding :=
  trials.foldl averageStep []

/-- Embedding of `fuzz_median` as a fold over its trials. -/
def fuzz_median (trials : List NumTrial) : List Finding :=
  trials.foldl medianStep []

/-- Embedding of `main`: the five campaigns run in the declared order and
`all_issues` accumulates every campaign's findings in that order (extending
by an empty list is a no-op, so the conditional extend in the source yields
exactly this concatenation). -/
def main_total (ct : List ChunkTrial) (dt : List DaysTrial) (ut : List DumpTrial)
    (avgT : List NumTrial) (medT : List NumTrial) : List Finding :=
  fuzz_make_chunks ct ++ fuzz_days_between dt ++ fuzz_dump_content ut ++
    fuzz_average avgT ++ fuzz_median medT

/-- An abstract state of the shared random source: a stream of natural
number draws, with a finite list continuing as zeros.  Each primitive call
of the random module consumes one draw. -/
abbrev RS := List Nat

/-- Consume one draw from the random source. -/
def rsDraw (s : RS) : Nat × RS := (s.headD 0, s.tail)

/-- Model of random.randint(lo, hi) for lo ≤ hi: one draw selects a value
in [lo, hi], every value being reachable. -/
def py_randint (lo hi : Int) (s : RS) : Int × RS :=
  let p := rsDraw s
  (lo + ((p.1 % (hi - lo + 1).toNat : Nat) : Int), p.2)

/-- Model of random.random(): one draw mapped into the unit interval
[0, 1). -/
def py_random (s : RS) : PyFloat × RS :=
  let p := rsDraw s
  (PyFloat.val (((p.1 % 1000000 : Nat) : Rat) / 1000000), p.2)

/-- Python float-times-int multiplication on the float model. -/
def pyMulFloatInt : PyFloat → Int → PyFloat
  | PyFloat.nan, _ => PyFloat.nan
  | PyFloat.val q, m => PyFloat.val (q * (m : Rat))

/-- Model of random.choice(xs): one draw selects an index of xs. -/
def py_choice (xs : List PyScalar) (s : RS) : PyScalar × RS :=
  let p := rsDraw s
  (xs.getD (p.1 % xs.length) PyScalar.none, p.2)

/-- n successive random.choice draws from one fixed options list, as in the
list comprehension of the numeric-noise generator. -/
def py_choices (xs : List PyScalar) : Nat → RS → List PyScalar × RS
  | 0, s => ([], s)
  | n + 1, s =>
    let c := py_choice xs s
    let rest := py_choices xs n c.2
    (c.1 :: rest.1, rest.2)

/-- The five option values that one call of `_generate_numeric_list` builds
before its element loop: evaluating the options list literal draws one
random integer in [-1000, 1000], one random float, and one scale factor in
[-10, 10], in that order. -/
def numeric_options (s : RS) : List PyScalar × RS :=
  let p1 := py_randint (-1000) 1000 s
  let p2 := py_random p1.2
  let p3 := py_randint (-10) 10 p2.2
  ([PyScalar.int p1.1, PyScalar.float (pyMulFloatInt p2.1 p3.1),
    PyScalar.str "", PyScalar.none, PyScalar.str "noise"], p3.2)

/-- Embedding of `_generate_numeric_list`: build the five options once,
draw the length in [0, 20], then choose every element from the same fixed
options list. -/
def generate_numeric_list (s : RS) : List PyScalar × RS :=
  let po := numeric_options s
  let pn := py_randint 0 20 po.2
  py_choices po.1 pn.1.toNat pn.2

/-- Modelled from the spec: the element loop of the variant of the
numeric-noise generator in which the random integer and random float
options are drawn afresh for each element (every element rebuilds the five
options with fresh draws before choosing among them). -/
def generate_numeric_list_fresh_elems : Nat → RS → List PyScalar × RS
  | 0, s => ([], s)
  | n + 1, s =>
    let po := numeric_options s
    let c := py_choice po.1 po.2
    let rest := generate_numeric_list_fresh_elems n c.2
    (c.1 :: rest.1, rest.2)

/-- Modelled from the spec: the numeric-noise generator as the claim reads
it, with the per-element draws of `generate_numeric_list_fresh_elems`. -/
def generate_numeric_list_fresh (s : RS) : List PyScalar × RS :=
  let pn := py_randint 0 20 s
  generate_numeric_list_fresh_elems pn.1.toNat pn.2

/-- One draw of a printable character (codepoint in [32, 126]) of the text
payload. -/
def py_randchar (s : RS) : Char × RS :=
  let p := rsDraw s
  (Char.ofNat (32 + p.1 % 95), p.2)

/-- n printable characters drawn in sequence. -/
def py_randchars : Nat → RS → List Char × RS
  | 0, s => ([], s)
  | n + 1, s =>
    let c := py_randchar s
    let rest := py_randchars n c.2
    (c.1 :: rest.1, rest.2)

/-- The destination filename the content-dump campaign builds from the
drawn number k: the f-string fuzz-{k}.txt under the temporary directory. -/
def dumpPath (tempDir : String) (k : Nat) : String :=
  tempDir ++ "/fuzz-" ++ Nat.repr k ++ ".txt"

/-- Generation phase of one content-dump trial: draw the content length in
[0, 2048], then that many characters, then the path number in [0, 999999];
returns the content, the drawn path number, and the advanced state. -/
def gen_dump_trial (s : RS) : String × Nat × RS :=
  let pn := py_randint 0 2048 s
  let pc := py_randchars pn.1.toNat pn.2
  let pk := py_randint 0 999999 pc.2
  (String.mk pc.1, pk.1.toNat, pk.2)

/-- The sequence of drawn path numbers over n content-dump trials. -/
def gen_dump_nums : Nat → RS → List Nat
  | 0, _ => []
  | n + 1, s =>
    let t := gen_dump_trial s
    t.2.1 :: gen_dump_nums n t.2.2

/-- The sequence of destination paths over n content-dump trials: each
trial's path is built from its own drawn number. -/
def gen_dump_paths (tempDir : String) (n : Nat) (s : RS) : List String :=
  (gen_dump_nums n s).map (dumpPath tempDir)

/-- A snapshot of the filesystem: the existing directories, and the
existing files with their sizes. -/
structure FS where
  dirs : List String
  files : List (String × Nat)
deriving DecidableEq

/-- Whether path p lies inside directory d: p starts with d followed by the
path separator. -/
def inDir (d p : String) : Bool := (d ++ "/").data.isPrefixOf p.data

/-- The filesystem effect of one content-dump trial: the external call of
`mining.dumpContentIntoFile` may persist a file of some size at the trial's
destination path.  Whether the file appears and how large it is are the
external target's behavior, so both are trial parameters; a faulting call
may or may not have written. -/
structure DumpEffect where
  pathNum : Nat
  wrote : Bool
  size : Nat
deriving DecidableEq

/-- Apply one trial's filesystem effect. -/
def dumpEffectStep (tempDir : String) (fs : FS) (t : DumpEffect) : FS :=
  if t.wrote then
    { fs with files := fs.files ++ [(dumpPath tempDir t.pathNum, t.size)] }
  else fs

/-- Filesystem semantics of the `fuzz_dump_content` campaign: the
`with tempfile.TemporaryDirectory()` statement creates the directory before
the loop, the loop applies each trial's effect (every destination path lies
inside the directory), and the context manager removes the directory and
everything inside it on exit.  Every fault of a trial is caught inside the
loop body, so the block always exits through the cleanup. -/
def fuzz_dump_content_fs (tempDir : String) (trials : List DumpEffect) (fs : FS) : FS :=
  let fs1 : FS := { fs with dirs := fs.dirs ++ [tempDir] }
  let fs2 := trials.foldl (dumpEffectStep tempDir) fs1
  { dirs := fs2.dirs.erase tempDir,
    files := fs2.files.filter (fun p => !(inDir tempDir p.1)) }

/-- The fault that triggered a recording, if any: a trial outcome's error
component. -/
def faultOf {α : Type} : Except Fault α → Option Fault
  | Except.ok _ => Option.none
  | Except.error e => some e

/-- Whether the value w is visible in the value v: w is v itself, an
element of v when v is a list, or a field value of v when v is a dict. -/
def pyvalMentions (v w : PyVal) : Bool :=
  v == w ||
    (match v with
     | PyVal.scalar _ => false
     | PyVal.list xs => xs.any (fun x => PyVal.scalar x == w)
     | PyVal.dict kvs => kvs.any (fun kv => PyVal.scalar kv.2 == w))

/-- Whether a recorded finding carries the value w: some field of the
finding mentions w. -/
def findingCarries (fin : Finding) (w : PyVal) : Bool :=
  fin.any (fun kv => pyvalMentions kv.2 w)

/-- Shape of every issue dict the harness records: a "function" field with
a non-empty string, a "detail" field with a non-empty string, a "payload"
field, and an "error" field exactly when a fault triggered the recording,
holding the fault's textual rendering. -/
def WellFormedIssue (fin : Finding) (fault : Option Fault) : Prop :=
  (∃ s, dlookup "function" fin = some (PyVal.scalar (PyScalar.str s)) ∧ s ≠ "") ∧
  (∃ s, dlookup "detail" fin = some (PyVal.scalar (PyScalar.str s)) ∧ s ≠ "") ∧
  (∃ p, dlookup "payload" fin = some p) ∧
  (match fault with
   | some e => dlookup "error" fin = some (PyVal.scalar (PyScalar.str (pyReprFault e)))
   | Option.none => dlookup "error" fin = Option.none)

/-! Decimal representation: `Nat.repr` is injective.  Proved by exhibiting
a parser that recovers a number from its decimal digit string. -/

/-- One step of decimal parsing. -/
def parseStep (a : Nat) (c : Char) : Nat := 10 * a + (c.toNat - 48)

/-- Numeric value of a decimal digit string, most significant digit
first. -/
def parseNat (s : String) : Nat := s.data.foldl parseStep 0

lemma toDigitsCore_eq_digits (fuel : Nat) :
    ∀ (n : Nat) (acc : List Char), n < 10 ^ fuel → 0 < n →
      Nat.toDigitsCore 10 fuel n acc =
        ((Nat.digits 10 n).map Nat.digitChar).reverse ++ acc := by
  induction fuel with
  | zero =>
    intro n acc hf hn
    simp at hf
    omega
  | succ fuel ih =>
    intro n acc hf hn
    by_cases h10 : n / 10 = 0
    · simp only [Nat.toDigitsCore, h10, if_true]
      rw [Nat.digits_def' (by norm_num : (1 : ℕ) < 10) hn, h10]
      simp
    · simp only [Nat.toDigitsCore, h10, if_false]
      have hf' : n / 10 < 10 ^ fuel := by
        rw [pow_succ'] at hf
        exact Nat.div_lt_of_lt_mul hf
      rw [ih (n / 10) (Nat.digitChar (n % 10) :: acc) hf' (Nat.pos_of_ne_zero h10)]
      rw [Nat.digits_def' (by norm_num : (1 : ℕ) < 10) hn]
      simp

lemma digitChar_toNat_sub (d : Nat) (hd : d < 10) :
    (Nat.digitChar d).toNat - 48 = d := by
  interval_cases d <;> rfl

lemma foldl_parse_digits (l : List Nat) (hl : ∀ d ∈ l, d < 10) :
    ∀ a : Nat, ((l.map Nat.digitChar).reverse).foldl parseStep a =
      a * 10 ^ l.length + Nat.ofDigits 10 l := by
  induction l with
  | nil => intro a; simp [Nat.ofDigits]
  | cons d t ih =>
    intro a
    simp only [List.map_cons, List.reverse_cons]
    rw [List.foldl_append]
    rw [ih (fun x hx => hl x (List.mem_cons_of_mem _ hx))]
    simp only [List.foldl_cons, List.foldl_nil, parseStep]
    rw [digitChar_toNat_sub d (hl d (List.mem_cons_self d t))]
    rw [Nat.ofDigits_cons]
    simp only [List.length_cons]
    ring

lemma parseNat_repr (n : Nat) : parseNat (Nat.repr n) = n := by
  rcases Nat.eq_zero_or_pos n with h | h
  · subst h; rfl
  · have hlt : n < 10 ^ (n + 1) :=
      lt_of_lt_of_le (Nat.lt_pow_self (by norm_num) n)
        (Nat.pow_le_pow_right (by norm_num) (Nat.le_succ n))
    show (Nat.repr n).data.foldl parseStep 0 = n
    rw [show Nat.repr n = (Nat.toDigitsCore 10 (n + 1) n []).asString from rfl]
    rw [toDigitsCore_eq_digits (n + 1) n [] hlt h]
    show (((Nat.digits 10 n).map Nat.digitChar).reverse ++ []).foldl parseStep 0 = n
    rw [List.append_nil]
    rw [foldl_parse_digits _ (fun d hd => Nat.digits_lt_base (by norm_num) hd) 0]
    simp [Nat.ofDigits_digits]

lemma repr_injective : Function.Injective Nat.repr := by
  intro a b h
  have h2 := congrArg parseNat h
  rwa [parseNat_repr, parseNat_repr] at h2

lemma dumpPath_injective (tempDir : String) : Function.Injective (dumpPath tempDir) := by
  intro j k h
  unfold dumpPath at h
  have h1 := congrArg String.data h
  simp only [String.data_append, List.append_assoc] at h1
  have h2 := List.append_cancel_left h1
  have h3 := List.append_cancel_left h2
  have h4 := List.append_cancel_right h3
  exact repr_injective (String.ext h4)

/-- Range of the randint model: for lo ≤ hi, the drawn value is in
[lo, hi]. -/
lemma py_randint_mem (lo hi : Int) (h : lo ≤ hi) (s : RS) :
    lo ≤ (py_randint lo hi s).1 ∧ (py_randint lo hi s).1 ≤ hi := by
  have hm : 0 < (hi - lo + 1).toNat := by omega
  have hlt := Nat.mod_lt (s.headD 0) hm
  have hcast : ((s.headD 0 % (hi - lo + 1).toNat : ℕ) : ℤ) < ((hi - lo + 1).toNat : ℤ) := by
    exact_mod_cast hlt
  simp only [py_randint, rsDraw]
  omega

/-! Per-trial step functions append their trial's findings to the incoming
issue list; campaigns are folds of such steps, so they decompose over
concatenations of trial lists. -/

lemma record_issue_eq (issues : List Finding) (f d : String) (p : PyVal) (e : Option Fault) :
    record_issue issues f d p e = issues ++ [issueOf f d p e] := rfl

lemma chunkStep_append (issues : List Finding) (t : ChunkTrial) :
    chunkStep issues t = issues ++ chunkStep [] t := by
  rcases t with ⟨data, size, outcome⟩
  cases outcome with
  | ok chunks =>
    simp only [chunkStep, record_issue]
    split_ifs <;> simp
  | error exc => simp [chunkStep, record_issue]

lemma daysStep_append (issues : List Finding) (t : DaysTrial) :
    daysStep issues t = issues ++ daysStep [] t := by
  rcases t with ⟨s0, s1, outcome⟩
  cases outcome with
  | ok r =>
    simp only [daysStep, record_issue]
    split_ifs <;> simp
  | error exc => simp [daysStep, record_issue]

lemma dumpStep_append (issues : List Finding) (t : DumpTrial) :
    dumpStep issues t = issues ++ dumpStep [] t := by
  rcases t with ⟨c, p, outcome⟩
  cases outcome with
  | ok sizes =>
    simp only [dumpStep, record_issue]
    split_ifs <;> simp
  | error exc => simp [dumpStep, record_issue]

lemma averageStep_append (issues : List Finding) (t : NumTrial) :
    averageStep issues t = issues ++ averageStep [] t := by
  rcases t with ⟨p, outcome⟩
  cases outcome with
  | ok r =>
    simp only [averageStep, record_issue]
    split_ifs <;> simp
  | error exc => simp [averageStep, record_issue]

lemma medianStep_append (issues : List Finding) (t : NumTrial) :
    medianStep issues t = issues ++ medianStep [] t := by
  rcases t with ⟨p, outcome⟩
  cases outcome with
  | ok r =>
    simp only [medianStep, record_issue]
    split_ifs <;> simp
  | error exc => simp [medianStep, record_issue]

lemma foldl_step_append {τ : Type} (step : List Finding → τ → List Finding)
    (hstep : ∀ issues t, step issues t = issues ++ step [] t) (l : List τ) :
    ∀ init : List Finding, l.foldl step init = init ++ l.foldl step [] := by
  induction l with
  | nil => intro init; simp
  | cons t ts ih =>
    intro init
    simp only [List.foldl_cons]
    rw [ih (step init t), ih (step [] t), hstep init t, List.append_assoc]

lemma fuzz_make_chunks_append (l1 l2 : List ChunkTrial) :
    fuzz_make_chunks (l1 ++ l2) = fuzz_make_chunks l1 ++ fuzz_make_chunks l2 := by
  unfold fuzz_make_chunks
  rw [List.foldl_append, foldl_step_append chunkStep chunkStep_append l2]

lemma fuzz_make_chunks_cons (t : ChunkTrial) (ts : List ChunkTrial) :
    fuzz_make_chunks (t :: ts) = chunkStep [] t ++ fuzz_make_chunks ts := by
  unfold fuzz_make_chunks
  simp only [List.foldl_cons]
  rw [foldl_step_append chunkStep chunkStep_append ts (chunkStep [] t)]

lemma fuzz_days_between_append (l1 l2 : List DaysTrial) :
    fuzz_days_between (l1 ++ l2) = fuzz_days_between l1 ++ fuzz_days_between l2 := by
  unfold fuzz_days_between
  rw [List.foldl_append, foldl_step_append daysStep daysStep_append l2]

lemma fuzz_days_between_cons (t : DaysTrial) (ts : List DaysTrial) :
    fuzz_days_between (t :: ts) = daysStep [] t ++ fuzz_days_between ts := by
  unfold fuzz_days_between
  simp only [List.foldl_cons]
  rw [foldl_step_append daysStep daysStep_append ts (daysStep [] t)]

lemma fuzz_dump_content_append (l1 l2 : List DumpTrial) :
    fuzz_dump_content (l1 ++ l2) = fuzz_dump_content l1 ++ fuzz_dump_content l2 := by
  unfold fuzz_dump_content
  rw [List.foldl_append, foldl_step_append dumpStep dumpStep_append l2]

lemma fuzz_dump_content_cons (t : DumpTrial) (ts : List DumpTrial) :
    fuzz_dump_content (t :: ts) = dumpStep [] t ++ fuzz_dump_content ts := by
  unfold fuzz_dump_content
  simp only [List.foldl_cons]
  rw [foldl_step_append dumpStep dumpStep_append ts (dumpStep [] t)]

lemma fuzz_average_append (l1 l2 : List NumTrial) :
    fuzz_average (l1 ++ l2) = fuzz_average l1 ++ fuzz_average l2 := by
  unfold fuzz_average
  rw [List.foldl_append, foldl_step_append averageStep averageStep_append l2]

lemma fuzz_average_cons (t : NumTrial) (ts : List NumTrial) :
    fuzz_average (t :: ts) = averageStep [] t ++ fuzz_average ts := by
  unfold fuzz_average
  simp only [List.foldl_cons]
  rw [foldl_step_append averageStep averageStep_append ts (averageStep [] t)]

lemma fuzz_median_append (l1 l2 : List NumTrial) :
    fuzz_median (l1 ++ l2) = fuzz_median l1 ++ fuzz_median l2 := by
  unfold fuzz_median
  rw [List.foldl_append, foldl_step_append medianStep medianStep_append l2]

lemma fuzz_median_cons (t : NumTrial) (ts : List NumTrial) :
    fuzz_median (t :: ts) = medianStep [] t ++ fuzz_median ts := by
  unfold fuzz_median
  simp only [List.foldl_cons]
  rw [foldl_step_append medianStep medianStep_append ts (medianStep [] t)]

lemma dlookup_issueOf_function (fn d : String) (p : PyVal) (e : Option Fault) :
    dlookup "function" (issueOf fn d p e) = some (PyVal.scalar (PyScalar.str fn)) := by
  cases e <;> rfl

lemma dlookup_issueOf_detail (fn d : String) (p : PyVal) (e : Option Fault) :
    dlookup "detail" (issueOf fn d p e) = some (PyVal.scalar (PyScalar.str d)) := by
  cases e <;> rfl

lemma dlookup_issueOf_payload (fn d : String) (p : PyVal) (e : Option Fault) :
    dlookup "payload" (issueOf fn d p e) = some p := by
  cases e <;> rfl

lemma dlookup_issueOf_error (fn d : String) (p : PyVal) (e : Option Fault) :
    dlookup "error" (issueOf fn d p e) =
      e.map (fun ex => PyVal.scalar (PyScalar.str (pyReprFault ex))) := by
  cases e <;> rfl

lemma wellFormed_issueOf (fn d : String) (p : PyVal) (e : Option Fault)
    (h1 : fn ≠ "") (h2 : d ≠ "") : WellFormedIssue (issueOf fn d p e) e := by
  refine ⟨⟨fn, dlookup_issueOf_function fn d p e, h1⟩,
          ⟨d, dlookup_issueOf_detail fn d p e, h2⟩,
          ⟨p, dlookup_issueOf_payload fn d p e⟩, ?_⟩
  cases e with
  | none => exact dlookup_issueOf_error fn d p Option.none
  | some ex => exact dlookup_issueOf_error fn d p (some ex)

/-- The options list of one `_generate_numeric_list` call, spelled out. -/
lemma numeric_options_fst (s : RS) :
    (numeric_options s).1 =
      [PyScalar.int (py_randint (-1000) 1000 s).1,
       PyScalar.float (pyMulFloatInt (py_random (py_randint (-1000) 1000 s).2).1
         (py_randint (-10) 10 (py_random (py_randint (-1000) 1000 s).2).2).1),
       PyScalar.str "", PyScalar.none, PyScalar.str "noise"] := rfl

lemma py_choices_length (xs : List PyScalar) :
    ∀ (n : Nat) (s : RS), (py_choices xs n s).1.length = n := by
  intro n
  induction n with
  | zero => intro s; rfl
  | succ n ih => intro s; simp [py_choices, ih]

lemma py_choice_mem (xs : List PyScalar) (h : xs ≠ []) (s : RS) :
    (py_choice xs s).1 ∈ xs := by
  simp only [py_choice, rsDraw]
  have hlt : (s.headD 0) % xs.length < xs.length := Nat.mod_lt _ (List.length_pos.mpr h)
  rw [List.getD_eq_getElem?_getD, List.getElem?_eq_getElem hlt]
  simp only [Option.getD_some]
  exact List.getElem_mem hlt

lemma py_choices_mem (xs : List PyScalar) (h : xs ≠ []) :
    ∀ (n : Nat) (s : RS) (x : PyScalar), x ∈ (py_choices xs n s).1 → x ∈ xs := by
  intro n
  induction n with
  | zero => intro s x hx; simp [py_choices] at hx
  | succ n ih =>
    intro s x hx
    simp only [py_choices, List.mem_cons] at hx
    rcases hx with hx | hx
    · subst hx; exact py_choice_mem xs h s
    · exact ih _ x hx

/-- Directory creation and per-trial effects never change the directory
list during the dump campaign loop. -/
lemma dump_foldl_dirs (tempDir : String) (trials : List DumpEffect) :
    ∀ fs : FS, (trials.foldl (dumpEffectStep tempDir) fs).dirs = fs.dirs := by
  induction trials with
  | nil => intro fs; rfl
  | cons t ts ih =>
    intro fs
    simp only [List.foldl_cons]
    rw [ih]
    unfold dumpEffectStep
    split_ifs <;> rfl

/-- Every destination path of the dump campaign lies inside the temporary
directory. -/
lemma inDir_dumpPath (tempDir : String) (k : Nat) :
    inDir tempDir (dumpPath tempDir k) = true := by
  unfold inDir dumpPath
  rw [List.isPrefixOf_iff_prefix]
  have hsplit : tempDir ++ "/fuzz-" ++ Nat.repr k ++ ".txt" =
      (tempDir ++ "/") ++ ("fuzz-" ++ (Nat.repr k ++ ".txt")) := by
    rw [show ("/fuzz-" : String) = "/" ++ "fuzz-" from rfl]
    simp only [String.append_assoc]
  rw [hsplit, String.data_append]
  exact List.prefix_append _ _

/-- During the dump loop, the file list only grows by files inside the
temporary directory. -/
lemma dump_foldl_files (tempDir : String) (trials : List DumpEffect) :
    ∀ fs : FS, ∃ added : List (String × Nat),
      (trials.foldl (dumpEffectStep tempDir) fs).files = fs.files ++ added ∧
        ∀ q ∈ added, inDir tempDir q.1 = true := by
  induction trials with
  | nil =>
    intro fs
    exact ⟨[], by simp, by simp⟩
  | cons t ts ih =>
    intro fs
    simp only [List.foldl_cons]
    rcases ih (dumpEffectStep tempDir fs t) with ⟨added, hadd, hmem⟩
    by_cases hw : t.wrote
    · refine ⟨(dumpPath tempDir t.pathNum, t.size) :: added, ?_, ?_⟩
      · rw [hadd]
        simp [dumpEffectStep, hw]
      · intro q hq
        rcases List.mem_cons.mp hq with hq | hq
        · subst hq; exact inDir_dumpPath tempDir t.pathNum
        · exact hmem q hq
    · refine ⟨added, ?_, hmem⟩
      rw [hadd]
      simp [dumpEffectStep, hw]

lemma isNaNFloat_iff (v : PyVal) :
    isNaNFloat v = true ↔ v = PyVal.scalar (PyScalar.float PyFloat.nan) := by
  cases v with
  | scalar sc =>
    cases sc with
    | float f => cases f <;> simp [isNaNFloat]
    | int n => simp [isNaNFloat]
    | str t => simp [isNaNFloat]
    | none => simp [isNaNFloat]
  | list xs => simp [isNaNFloat]
  | dict kvs => simp [isNaNFloat]

/-- C2: for every chunking trial in which the target returns normally, a
finding is recorded exactly when either the chunk size is non-positive and
the returned chunk list is non-empty, or the size is positive and the
flattened chunks differ from the original input (so nothing is recorded for
a non-positive size with empty output, nor for a positive size with a
faithful reconstruction, which covers the empty input and a size at least
the input length). -/
theorem C2_chunk_oracle (data : List Int) (size : Int) (chunks : List (List Int)) :
    chunkStep [] ⟨data, size, Except.ok chunks⟩ ≠ [] ↔
      (size ≤ 0 ∧ chunks ≠ []) ∨ (0 < size ∧ chunks.flatten ≠ data) := by
  simp only [chunkStep, record_issue]
  split_ifs with h1 h2 <;> simp_all

/-- C3: for every date-difference trial in which the target returns a
result, the trial records exactly one finding with detail "Negative delta
returned", whose payload holds both ISO-formatted timestamps and the
result, when the result is negative, and records nothing otherwise. -/
theorem C3_days_oracle (start endDate : Timestamp) (result : Int) :
    daysStep [] ⟨start, endDate, Except.ok result⟩ =
      (if result < 0 then
        [issueOf "days_between" "Negative delta returned"
          (PyVal.dict [("start", PyScalar.str (isoformat start)),
                       ("end", PyScalar.str (isoformat endDate)),
                       ("result", PyScalar.int result)]) Option.none]
       else []) ∧
    (daysStep [] ⟨start, endDate, Except.ok result⟩ ≠ [] ↔ result < 0) := by
  constructor
  · simp only [daysStep, record_issue]
    split_ifs <;> rfl
  · simp only [daysStep, record_issue]
    split_ifs with h <;> simp_all

/-- C4: for every Average trial and every Median trial in which the target
returns a result, a finding is recorded exactly when the generated payload
is non-empty and the result is the NaN sentinel, and never more than one
finding per trial. -/
theorem C4_nan_oracle (payload : List PyScalar) (result : PyVal) :
    (averageStep [] ⟨payload, Except.ok result⟩ ≠ [] ↔
      payload ≠ [] ∧ result = PyVal.scalar (PyScalar.float PyFloat.nan)) ∧
    (averageStep [] ⟨payload, Except.ok result⟩).length ≤ 1 ∧
    (medianStep [] ⟨payload, Except.ok result⟩ ≠ [] ↔
      payload ≠ [] ∧ result = PyVal.scalar (PyScalar.float PyFloat.nan)) ∧
    (medianStep [] ⟨payload, Except.ok result⟩).length ≤ 1 := by
  refine ⟨?_, ?_, ?_, ?_⟩
  · simp only [averageStep, record_issue]
    split_ifs with h
    · simp [isNaNFloat_iff result |>.mp h.1, h.2]
    · rw [not_and_or] at h
      constructor
      · intro hfalse
        exact absurd rfl hfalse
      · intro hc
        rcases h with h | h
        · exact absurd (by rw [hc.2]; rfl) h
        · exact absurd hc.1 h
  · simp only [averageStep, record_issue]
    split_ifs <;> simp
  · simp only [medianStep, record_issue]
    split_ifs with h
    · simp [isNaNFloat_iff result |>.mp h.1, h.2]
    · rw [not_and_or] at h
      constructor
      · intro hfalse
        exact absurd rfl hfalse
      · intro hc
        rcases h with h | h
        · exact absurd (by rw [hc.2]; rfl) h
        · exact absurd hc.1 h
  · simp only [medianStep, record_issue]
    split_ifs <;> simp

/-- C6: one call of the issue recorder returns the incoming collection with
exactly one new finding appended at the end, leaves every previously
recorded entry unchanged, and, when a fault object is supplied, the
appended finding carries a textual rendering of the fault (its kind and
message) in its "error" field. -/
theorem C6_recorder_contract (issues : List Finding) (fn detail : String)
    (p : PyVal) (e : Option Fault) :
    record_issue issues fn detail p e = issues ++ [issueOf fn detail p e] ∧
    (record_issue issues fn detail p e).length = issues.length + 1 ∧
    (record_issue issues fn detail p e).take issues.length = issues ∧
    dlookup "error" (issueOf fn detail p e) =
      e.map (fun ex => PyVal.scalar (PyScalar.str (ex.kind ++ "('" ++ ex.msg ++ "')"))) := by
  refine ⟨rfl, by simp [record_issue], ?_, ?_⟩
  · exact List.take_left issues [issueOf fn detail p e]
  · rw [dlookup_issueOf_error]
    cases e <;> rfl

/-- C10: each single trial of any campaign appends at most one finding: on
the fault path exactly one finding is recorded, and on the success path the
oracle conditions are mutually exclusive (for chunking the non-positive
size check and the reconstruction check never both fire). -/
theorem C10_at_most_one_finding (tc : ChunkTrial) (td : DaysTrial) (tu : DumpTrial)
    (ta tm : NumTrial) :
    (chunkStep [] tc).length ≤ 1 ∧ (daysStep [] td).length ≤ 1 ∧
    (dumpStep [] tu).length ≤ 1 ∧ (averageStep [] ta).length ≤ 1 ∧
    (medianStep [] tm).length ≤ 1 := by
  refine ⟨?_, ?_, ?_, ?_, ?_⟩
  · rcases tc with ⟨d, sz, o⟩
    cases o with
    | ok chunks =>
      simp only [chunkStep, record_issue]
      split_ifs with h1 h2
      · omega
      · simp
      · simp
      · simp
    | error exc => simp [chunkStep, record_issue]
  · rcases td with ⟨s0, s1, o⟩
    cases o with
    | ok r =>
      simp only [daysStep, record_issue]
      split_ifs <;> simp
    | error exc => simp [daysStep, record_issue]
  · rcases tu with ⟨c, pth, o⟩
    cases o with
    | ok sizes =>
      simp only [dumpStep, record_issue]
      split_ifs <;> simp
    | error exc => simp [dumpStep, record_issue]
  · rcases ta with ⟨pl, o⟩
    cases o with
    | ok r =>
      simp only [averageStep, record_issue]
      split_ifs <;> simp
    | error exc => simp [averageStep, record_issue]
  · rcases tm with ⟨pl, o⟩
    cases o with
    | ok r =>
      simp only [medianStep, record_issue]
      split_ifs <;> simp
    | error exc => simp [medianStep, record_issue]

/-- C1 counterexample: a concrete chunking trial whose target call faults
records exactly one finding, but that finding does not carry the generated
input sequence — its payload holds only the chunk size and the input's
length — refuting the claim that the recorded finding carries the generated
input. -/
theorem C1_counterexample :
    chunkStep [] ⟨[5], 1, Except.error ⟨"ValueError", "boom"⟩⟩ =
      [issueOf "makeChunks" "Exception during chunking"
        (PyVal.dict [("size", PyScalar.int 1), ("len", PyScalar.int 1)])
        (some ⟨"ValueError", "boom"⟩)] ∧
    findingCarries
      (issueOf "makeChunks" "Exception during chunking"
        (PyVal.dict [("size", PyScalar.int 1), ("len", PyScalar.int 1)])
        (some ⟨"ValueError", "boom"⟩))
      (PyVal.list [PyScalar.int 5]) = false := by
  exact ⟨rfl, rfl⟩

/-- C1 (amended): for every trial of every campaign whose target invocation
faults, exactly one finding is recorded, carrying a textual fault
description and a summary of the generated input (the chunk size and input
length for chunking, the ISO timestamps for date difference, the path and
content length for the content dump, and the full payload for Average and
Median); no oracle check contributes a finding for that trial, the campaign
continues with the remaining trials, and the run continues with the
remaining targets. -/
theorem C1_fault_boundary :
    (∀ (data : List Int) (size : Int) (exc : Fault),
      chunkStep [] ⟨data, size, Except.error exc⟩ =
        [issueOf "makeChunks" "Exception during chunking"
          (PyVal.dict [("size", PyScalar.int size),
                       ("len", PyScalar.int (data.length : Int))]) (some exc)]) ∧
    (∀ (start endDate : Timestamp) (exc : Fault),
      daysStep [] ⟨start, endDate, Except.error exc⟩ =
        [issueOf "days_between" "Exception during computation"
          (PyVal.dict [("start", PyScalar.str (isoformat start)),
                       ("end", PyScalar.str (isoformat endDate))]) (some exc)]) ∧
    (∀ (content path : String) (exc : Fault),
      dumpStep [] ⟨content, path, Except.error exc⟩ =
        [issueOf "dumpContentIntoFile" "Exception during write"
          (PyVal.dict [("path", PyScalar.str path),
                       ("len", PyScalar.int (content.length : Int))]) (some exc)]) ∧
    (∀ (payload : List PyScalar) (exc : Fault),
      averageStep [] ⟨payload, Except.error exc⟩ =
        [issueOf "Average" "Exception during average" (PyVal.list payload) (some exc)] ∧
      medianStep [] ⟨payload, Except.error exc⟩ =
        [issueOf "Median" "Exception during median" (PyVal.list payload) (some exc)]) ∧
    (∀ (pre post : List ChunkTrial) (t : ChunkTrial),
      fuzz_make_chunks (pre ++ t :: post) =
        fuzz_make_chunks pre ++ chunkStep [] t ++ fuzz_make_chunks post) ∧
    (∀ (pre post : List DaysTrial) (t : DaysTrial),
      fuzz_days_between (pre ++ t :: post) =
        fuzz_days_between pre ++ daysStep [] t ++ fuzz_days_between post) ∧
    (∀ (pre post : List DumpTrial) (t : DumpTrial),
      fuzz_dump_content (pre ++ t :: post) =
        fuzz_dump_content pre ++ dumpStep [] t ++ fuzz_dump_content post) ∧
    (∀ (pre post : List NumTrial) (t : NumTrial),
      fuzz_average (pre ++ t :: post) =
        fuzz_average pre ++ averageStep [] t ++ fuzz_average post ∧
      fuzz_median (pre ++ t :: post) =
        fuzz_median pre ++ medianStep [] t ++ fuzz_median post) ∧
    (∀ (pre post : List ChunkTrial) (t : ChunkTrial) (dt : List DaysTrial)
        (ut : List DumpTrial) (avgT medT : List NumTrial),
      main_total (pre ++ t :: post) dt ut avgT medT =
        fuzz_make_chunks pre ++ chunkStep [] t ++ fuzz_make_chunks post ++
          fuzz_days_between dt ++ fuzz_dump_content ut ++
          fuzz_average avgT ++ fuzz_median medT) := by
  refine ⟨fun data size exc => rfl, fun s0 s1 exc => rfl, fun c pth exc => rfl,
          fun pl exc => ⟨rfl, rfl⟩, ?_, ?_, ?_, ?_, ?_⟩
  · intro pre post t
    rw [fuzz_make_chunks_append, fuzz_make_chunks_cons, List.append_assoc]
  · intro pre post t
    rw [fuzz_days_between_append, fuzz_days_between_cons, List.append_assoc]
  · intro pre post t
    rw [fuzz_dump_content_append, fuzz_dump_content_cons, List.append_assoc]
  · intro pre post t
    constructor
    · rw [fuzz_average_append, fuzz_average_cons, List.append_assoc]
    · rw [fuzz_median_append, fuzz_median_cons, List.append_assoc]
  · intro pre post t dt ut avgT medT
    unfold main_total
    rw [fuzz_make_chunks_append, fuzz_make_chunks_cons]
    simp only [List.append_assoc]

/-- C5 counterexample: the issue dict appended by a concrete recorder call
has no field named "target" at all — the target's name is stored under the
key "function" — refuting the claim that every recorded finding has a field
named target. -/
theorem C5_counterexample :
    record_issue [] "makeChunks" "Exception during chunking"
        (PyVal.dict [("size", PyScalar.int 1), ("len", PyScalar.int 1)])
        (some ⟨"ValueError", "boom"⟩) =
      [[("function", PyVal.scalar (PyScalar.str "makeChunks")),
        ("detail", PyVal.scalar (PyScalar.str "Exception during chunking")),
        ("payload", PyVal.dict [("size", PyScalar.int 1), ("len", PyScalar.int 1)]),
        ("error", PyVal.scalar (PyScalar.str "ValueError('boom')"))]] ∧
    dlookup "target"
      [("function", PyVal.scalar (PyScalar.str "makeChunks")),
       ("detail", PyVal.scalar (PyScalar.str "Exception during chunking")),
       ("payload", PyVal.dict [("size", PyScalar.int 1), ("len", PyScalar.int 1)]),
       ("error", PyVal.scalar (PyScalar.str "ValueError('boom')"))] = Option.none := by
  refine ⟨rfl, by decide⟩

/-- C5 (amended): every finding recorded by any campaign's trial is a dict
with a field named "function" holding a non-empty string, a field named
"detail" holding a non-empty string, a "payload" field, and an "error"
field present exactly when a fault object triggered the recording. -/
theorem C5_finding_shape :
    (∀ t : ChunkTrial, ∀ fin ∈ chunkStep [] t, WellFormedIssue fin (faultOf t.outcome)) ∧
    (∀ t : DaysTrial, ∀ fin ∈ daysStep [] t, WellFormedIssue fin (faultOf t.outcome)) ∧
    (∀ t : DumpTrial, ∀ fin ∈ dumpStep [] t, WellFormedIssue fin (faultOf t.outcome)) ∧
    (∀ t : NumTrial, ∀ fin ∈ averageStep [] t, WellFormedIssue fin (faultOf t.outcome)) ∧
    (∀ t : NumTrial, ∀ fin ∈ medianStep [] t, WellFormedIssue fin (faultOf t.outcome)) := by
  refine ⟨?_, ?_, ?_, ?_, ?_⟩
  · rintro ⟨d, sz, o⟩ fin hfin
    cases o with
    | ok chunks =>
      simp only [chunkStep, record_issue] at hfin
      split_ifs at hfin with h1 h2 <;>
        simp only [List.nil_append, List.mem_append, List.mem_singleton,
          List.not_mem_nil, false_or, or_false] at hfin
      · rcases hfin with hfin | hfin <;>
          (subst hfin; exact wellFormed_issueOf _ _ _ _ (by decide) (by decide))
      · subst hfin; exact wellFormed_issueOf _ _ _ _ (by decide) (by decide)
      · subst hfin; exact wellFormed_issueOf _ _ _ _ (by decide) (by decide)
    | error exc =>
      simp only [chunkStep, record_issue, List.nil_append,
        List.mem_singleton] at hfin
      subst hfin; exact wellFormed_issueOf _ _ _ _ (by decide) (by decide)
  · rintro ⟨s0, s1, o⟩ fin hfin
    cases o with
    | ok r =>
      simp only [daysStep, record_issue] at hfin
      split_ifs at hfin with h
      · simp only [List.nil_append, List.mem_singleton] at hfin
        subst hfin; exact wellFormed_issueOf _ _ _ _ (by decide) (by decide)
      · simp at hfin
    | error exc =>
      simp only [daysStep, record_issue, List.nil_append,
        List.mem_singleton] at hfin
      subst hfin; exact wellFormed_issueOf _ _ _ _ (by decide) (by decide)
  · rintro ⟨c, pth, o⟩ fin hfin
    cases o with
    | ok sizes =>
      simp only [dumpStep, record_issue] at hfin
      split_ifs at hfin with h
      · simp only [List.nil_append, List.mem_singleton] at hfin
        subst hfin; exact wellFormed_issueOf _ _ _ _ (by decide) (by decide)
      · simp at hfin
    | error exc =>
      simp only [dumpStep, record_issue, List.nil_append,
        List.mem_singleton] at hfin
      subst hfin; exact wellFormed_issueOf _ _ _ _ (by decide) (by decide)
  · rintro ⟨pl, o⟩ fin hfin
    cases o with
    | ok r =>
      simp only [averageStep, record_issue] at hfin
      split_ifs at hfin with h
      · simp only [List.nil_append, List.mem_singleton] at hfin
        subst hfin; exact wellFormed_issueOf _ _ _ _ (by decide) (by decide)
      · simp at hfin
    | error exc =>
      simp only [averageStep, record_issue, List.nil_append,
        List.mem_singleton] at hfin
      subst hfin; exact wellFormed_issueOf _ _ _ _ (by decide) (by decide)
  · rintro ⟨pl, o⟩ fin hfin
    cases o with
    | ok r =>
      simp only [medianStep, record_issue] at hfin
      split_ifs at hfin with h
      · simp only [List.nil_append, List.mem_singleton] at hfin
        subst hfin; exact wellFormed_issueOf _ _ _ _ (by decide) (by decide)
      · simp at hfin
    | error exc =>
      simp only [medianStep, record_issue, List.nil_append,
        List.mem_singleton] at hfin
      subst hfin; exact wellFormed_issueOf _ _ _ _ (by decide) (by decide)

/-- Witness for C5 (amended) at a concrete faulting chunk trial. -/
theorem C5_finding_shape_witness :
    WellFormedIssue
      (issueOf "makeChunks" "Exception during chunking"
        (PyVal.dict [("size", PyScalar.int 1), ("len", PyScalar.int 1)])
        (some ⟨"ValueError", "boom"⟩))
      (some ⟨"ValueError", "boom"⟩) :=
  C5_finding_shape.1 ⟨[5], 1, Except.error ⟨"ValueError", "boom"⟩⟩
    (issueOf "makeChunks" "Exception during chunking"
      (PyVal.dict [("size", PyScalar.int 1), ("len", PyScalar.int 1)])
      (some ⟨"ValueError", "boom"⟩)) (by decide)

lemma FS_ext (x y : FS) (h1 : x.dirs = y.dirs) (h2 : x.files = y.files) : x = y := by
  cases x
  cases y
  simp_all

lemma gen_dump_nums_le : ∀ (n : Nat) (s : RS), ∀ k ∈ gen_dump_nums n s, k ≤ 999999 := by
  intro n
  induction n with
  | zero => intro s k hk; simp [gen_dump_nums] at hk
  | succ n ih =>
    intro s k hk
    simp only [gen_dump_nums, gen_dump_trial, List.mem_cons] at hk
    rcases hk with hk | hk
    · subst hk
      have hr := py_randint_mem 0 999999 (by norm_num)
        (py_randchars (py_randint 0 2048 s).1.toNat (py_randint 0 2048 s).2).2
      omega
    · exact ih _ k hk

/-- C7 counterexample: at the concrete random state [2], the generator as
implemented returns an empty sequence, while the generator that draws the
random integer and float afresh for each element returns two elements (both
equal to the single reachable first option); the two disagree, refuting the
claim that the options are drawn afresh per element. -/
theorem C7_counterexample :
    (generate_numeric_list [2]).1 = [] ∧
    (generate_numeric_list_fresh [2]).1 =
      [PyScalar.int (-1000), PyScalar.int (-1000)] ∧
    (generate_numeric_list [2]).1 ≠ (generate_numeric_list_fresh [2]).1 := by
  refine ⟨by decide, by decide, by decide⟩

/-- C7 (amended): every sequence the numeric-noise generator produces has
length at most 20 and every element is one of the five option values built
once per call — a single random integer in [-1000, 1000], a single scaled
random float, the empty string, the absent-value marker, and the token
"noise"; in particular, all integer elements of one sequence are equal (the
integer option is drawn once per sequence, not afresh per element). -/
theorem C7_noise_generator (s : RS) :
    (generate_numeric_list s).1.length ≤ 20 ∧
    (∀ x ∈ (generate_numeric_list s).1, x ∈ (numeric_options s).1) ∧
    (∀ a b : Int, PyScalar.int a ∈ (generate_numeric_list s).1 →
      PyScalar.int b ∈ (generate_numeric_list s).1 → a = b) ∧
    (∀ a : Int, PyScalar.int a ∈ (generate_numeric_list s).1 →
      -1000 ≤ a ∧ a ≤ 1000) := by
  have hne : (numeric_options s).1 ≠ [] := by
    rw [numeric_options_fst]
    simp
  have hmem : ∀ x ∈ (generate_numeric_list s).1, x ∈ (numeric_options s).1 := by
    intro x hx
    unfold generate_numeric_list at hx
    exact py_choices_mem _ hne _ _ x hx
  have hint : ∀ a : Int, PyScalar.int a ∈ (generate_numeric_list s).1 →
      a = (py_randint (-1000) 1000 s).1 := by
    intro a ha
    have h2 := hmem _ ha
    rw [numeric_options_fst] at h2
    simp only [List.mem_cons, List.not_mem_nil, or_false] at h2
    rcases h2 with h2 | h2 | h2 | h2 | h2 <;> simp_all
  refine ⟨?_, hmem, ?_, ?_⟩
  · unfold generate_numeric_list
    rw [py_choices_length]
    have hr := py_randint_mem 0 20 (by norm_num) (numeric_options s).2
    omega
  · intro a b ha hb
    rw [hint a ha, hint b hb]
  · intro a ha
    rw [hint a ha]
    have hr := py_randint_mem (-1000) 1000 (by norm_num) s
    exact ⟨hr.1, hr.2⟩

/-- Witness for C7 (amended) at a concrete random state whose generated
sequence contains an integer element. -/
theorem C7_noise_generator_witness :
    (-1000 : Int) ≤ -1000 ∧ (-1000 : Int) ≤ 1000 :=
  (C7_noise_generator [0, 0, 0, 1]).2.2.2 (-1000) (by decide)

/-- C8 counterexample: at the all-zeros random state, two consecutive
content-dump trials draw the same path number 0 and therefore use the same
destination path, refuting the claim that every random state yields a
distinct destination path per trial. -/
theorem C8_counterexample :
    gen_dump_paths "T" 2 [] = ["T/fuzz-0.txt", "T/fuzz-0.txt"] ∧
    ¬ (gen_dump_paths "T" 2 []).Pairwise (fun a b => a ≠ b) := by
  refine ⟨by decide, by decide⟩

/-- C8 (amended): each content-dump trial's destination path is fuzz-k.txt
under the temporary directory for that trial's drawn number k in
[0, 999999], and the paths of a campaign are pairwise distinct whenever the
drawn numbers are pairwise distinct (distinctness is not guaranteed for
every random state, since the numbers may repeat). -/
theorem C8_dump_paths (tempDir : String) (n : Nat) (s : RS) :
    gen_dump_paths tempDir n s = (gen_dump_nums n s).map (dumpPath tempDir) ∧
    (∀ k ∈ gen_dump_nums n s, k ≤ 999999) ∧
    ((gen_dump_nums n s).Pairwise (fun a b => a ≠ b) →
      (gen_dump_paths tempDir n s).Pairwise (fun a b => a ≠ b)) := by
  refine ⟨rfl, gen_dump_nums_le n s, ?_⟩
  intro h
  unfold gen_dump_paths
  exact List.Pairwise.map (dumpPath tempDir)
    (fun a b hab hc => hab (dumpPath_injective tempDir hc)) h

/-- Witness for C8 (amended) at a random state drawing the distinct path
numbers 5 and 7. -/
theorem C8_dump_paths_witness :
    (gen_dump_paths "T" 2 [0, 5, 0, 7]).Pairwise (fun a b => a ≠ b) :=
  (C8_dump_paths "T" 2 [0, 5, 0, 7]).2.2 (by decide)

/-- C9: the temporary directory of the content-dump campaign, together with
every artifact written into it, is gone after the campaign, whatever the
trials do (including faulting targets that may or may not have written):
on a filesystem that did not already contain the directory or files under
it, the whole campaign leaves the filesystem exactly as it was, the
directory does not exist afterwards, and no file under it remains. -/
theorem C9_temp_dir_cleanup (tempDir : String) (trials : List DumpEffect) (fs : FS)
    (hdir : tempDir ∉ fs.dirs)
    (hfiles : ∀ p ∈ fs.files, inDir tempDir p.1 = false) :
    fuzz_dump_content_fs tempDir trials fs = fs ∧
    tempDir ∉ (fuzz_dump_content_fs tempDir trials fs).dirs ∧
    (∀ p ∈ (fuzz_dump_content_fs tempDir trials fs).files,
      inDir tempDir p.1 = false) := by
  have hmain : fuzz_dump_content_fs tempDir trials fs = fs := by
    rcases dump_foldl_files tempDir trials { fs with dirs := fs.dirs ++ [tempDir] } with
      ⟨added, hadd, hmem⟩
    have hadd' : (trials.foldl (dumpEffectStep tempDir)
        { fs with dirs := fs.dirs ++ [tempDir] }).files = fs.files ++ added := hadd
    have hdirs : (trials.foldl (dumpEffectStep tempDir)
        { fs with dirs := fs.dirs ++ [tempDir] }).dirs = fs.dirs ++ [tempDir] :=
      dump_foldl_dirs tempDir trials _
    apply FS_ext
    · show (trials.foldl (dumpEffectStep tempDir)
          { fs with dirs := fs.dirs ++ [tempDir] }).dirs.erase tempDir = fs.dirs
      rw [hdirs, List.erase_append_right [tempDir] hdir, List.erase_cons_head,
        List.append_nil]
    · show (trials.foldl (dumpEffectStep tempDir)
          { fs with dirs := fs.dirs ++ [tempDir] }).files.filter
            (fun p => !(inDir tempDir p.1)) = fs.files
      rw [hadd', List.filter_append]
      have h1 : fs.files.filter (fun p => !(inDir tempDir p.1)) = fs.files := by
        apply List.filter_eq_self.mpr
        intro a ha
        simp [hfiles a ha]
      have h2 : added.filter (fun p => !(inDir tempDir p.1)) = [] := by
        apply List.filter_eq_nil_iff.mpr
        intro a ha
        simp [hmem a ha]
      rw [h1, h2, List.append_nil]
  refine ⟨hmain, ?_, ?_⟩
  · rw [hmain]
    exact hdir
  · rw [hmain]
    exact hfiles

/-- Witness for C9 at a concrete campaign of two trials (one write, one
faulting trial without a write) over a filesystem holding an unrelated
file. -/
theorem C9_temp_dir_cleanup_witness :
    fuzz_dump_content_fs "/tmp/fuzzdir" [⟨5, true, 3⟩, ⟨5, false, 0⟩]
        ⟨["/home"], [("/home/a.txt", 2)]⟩ =
      ⟨["/home"], [("/home/a.txt", 2)]⟩ :=
  (C9_temp_dir_cleanup "/tmp/fuzzdir" [⟨5, true, 3⟩, ⟨5, false, 0⟩]
    ⟨["/home"], [("/home/a.txt", 2)]⟩ (by decide) (by decide)).1

end Fuzz
